import Mathlib

/-!
Verification of the OpenPype plugin collection: shallow embeddings of
`get_frame_path`, `update_frame_range`, `switch_item`,
`maintained_selection` (hosts/fusion/api/lib.py) and
`ValidateInstanceHasMembers` (maya/publish/validate_instance_has_members.py),
with theorems settling the specified properties.
-/

namespace OpenPype

/-! ## Frame-path parser (`get_frame_path` and `os.path.splitext`) -/

/-- Python `str.rfind` for a single character: index of the last occurrence,
or `-1` when absent.  Embeds the `rfind` calls inside `os.path.splitext`. -/
def pyRFind (c : Char) (l : List Char) : Int :=
  match l.reverse.findIdx? (fun x => x == c) with
  | none => -1
  | some i => (l.length : Int) - 1 - (i : Int)

/-- Embedding of CPython `genericpath._splitext` (with `sep = '\\'`,
`altsep = '/'`, `extsep = '.'` as in `ntpath`; `posixpath` only differs on
backslashes).  The scan for a non-dot character between the last separator
and the last dot reproduces the `while filenameIndex < dotIndex` loop that
keeps leading dots of the basename out of the extension. -/
def splitextL (p : List Char) : List Char × List Char :=
  let sepIndex := max (pyRFind '\\' p) (pyRFind '/' p)
  let dotIndex := pyRFind '.' p
  if sepIndex < dotIndex then
    if ((p.drop (sepIndex + 1).toNat).take (dotIndex - sepIndex - 1).toNat).any
        (fun x => x != '.') then
      (p.take dotIndex.toNat, p.drop dotIndex.toNat)
    else
      (p, [])
  else
    (p, [])

/-- The text Python's `$` anchor sees the end of: the string minus one
trailing newline, because `$` (without `re.MULTILINE`) matches at the end of
the string and also just before a newline at the end of the string. -/
def stripTrailingNewline (s : List Char) : List Char :=
  if s.getLast? = some '\n' then s.dropLast else s

/-- Embedding of `re.match('.*?([0-9]+)$', filename)`, returning the length
of group 1 on success.  In Python semantics `.` never matches `\n` and `$`
matches at the end or just before one trailing newline, so with
`t := stripTrailingNewline filename` the match succeeds iff `t` ends in a
non-empty digit run and contains no newline (the lazy `.*?` cannot cross
one); group 1 is then the maximal trailing digit run of `t`, since `.*?`
stops at the earliest position from which `[0-9]+$` can reach the anchor. -/
def frameNumberMatch (s : List Char) : Option Nat :=
  let t := stripTrailingNewline s
  let m := (t.reverse.takeWhile Char.isDigit).length
  if m ≠ 0 ∧ '\n' ∉ t then some m else none

/-- Embedding of `get_frame_path` (hosts/fusion/api/lib.py): split the
extension off, match the stem against `.*?([0-9]+)$`; on a match the
padding is the group length and `filename[:-padding]` removes that many
characters from the end of the stem, otherwise the padding defaults to 4. -/
def get_frame_path (path : List Char) : List Char × Nat × List Char :=
  let fe := splitextL path
  match frameNumberMatch fe.1 with
  | some padding => (fe.1.take (fe.1.length - padding), padding, fe.2)
  | none => (fe.1, 4, fe.2)

/-! ## Membership validator (`ValidateInstanceHasMembers`) -/

/-- A publish Instance as the validator reads it: the `name` and
`setMembers` entries of `instance.data`. -/
structure Instance where
  name : String
  setMembers : List String
  deriving Repr, DecidableEq

/-- Embedding of `ValidateInstanceHasMembers.get_invalid`: the member list is
falsy exactly when it is empty, and then the instance name is collected. -/
def get_invalid (inst : Instance) : List String :=
  if inst.setMembers.isEmpty then [inst.name] else []

/-- Python `str` of a list of strings, as used by
`"Empty instances found: {0}".format(invalid)`. -/
def pyStrList (xs : List String) : String :=
  "[" ++ String.intercalate ", " (xs.map (fun s => "'" ++ s ++ "'")) ++ "]"

/-- Embedding of `ValidateInstanceHasMembers.process`: raises `RuntimeError`
with the formatted message when `get_invalid` is non-empty. -/
def validator_process (inst : Instance) : Except String Unit :=
  let invalid := get_invalid inst
  if invalid.isEmpty then Except.ok ()
  else Except.error ("Empty instances found: " ++ pyStrList invalid)

/-! ## Frame-range setter (`update_frame_range`) -/

/-- The attribute dictionary `update_frame_range` passes to `comp.SetAttrs`:
`COMPN_GlobalStart/.../COMPN_RenderEnd`; an absent render key is `none`. -/
structure FrameAttrs where
  globalStart : Int
  globalEnd : Int
  renderStart : Option Int
  renderEnd : Option Int
  deriving Repr, DecidableEq

/-- Python `x or 0` on an optional number: `None` and `0` are falsy and give
`0`; any other number is returned unchanged. -/
def orZero : Option Int → Int
  | none => 0
  | some v => if v = 0 then 0 else v

/-- Embedding of `update_frame_range` (hosts/fusion/api/lib.py): converts
`None` handles to zero, writes the global range `[start - handle_start,
end + handle_end]`, and adds the render range `[start, end]` when
`set_render_range` is set. -/
def update_frame_range (start stop : Int) (set_render_range : Bool)
    (handle_start handle_end : Option Int) : FrameAttrs :=
  let hs := orZero handle_start
  let he := orZero handle_end
  { globalStart := start - hs
    globalEnd := stop + he
    renderStart := if set_render_range then some start else none
    renderEnd := if set_render_range then some stop else none }

/-! ## Container switcher (`switch_item`) -/

/-- A document of the external metadata store, reduced to the fields
`switch_item` reads: `_id` and `name`. -/
structure Doc where
  id : Nat
  name : String
  deriving Repr, DecidableEq

/-- The lookup service (`openpype.client`): each field is one keyed read
returning a record or an absent value, exactly as the external interface
specifies. -/
structure DB where
  asset_by_name : String → Option Doc
  subset_by_name : String → Nat → Option Doc
  last_version_by_subset_id : Nat → Option Doc
  representation_by_name : String → Nat → Option Doc
  representation_by_id : Nat → Option Doc
  representation_parents : Nat → Option (Doc × Doc × Doc × Doc)

/-- A loaded container, reduced to the field `switch_item` reads: the id of
its current representation. -/
structure Container where
  representation : Nat
  deriving Repr, DecidableEq

/-- One observable effect of `switch_item`: a lookup against the metadata
store or the final `switch_container` repointing. -/
inductive Action where
  | lookupReprById (id : Nat)
  | lookupParents (id : Nat)
  | lookupAsset (name : String)
  | lookupSubset (name : String) (assetId : Nat)
  | lookupLastVersion (subsetId : Nat)
  | lookupReprByName (name : String) (versionId : Nat)
  | switchContainer (reprId : Nat)
  deriving Repr, DecidableEq

/-- The exceptions `switch_item` can raise. -/
inductive PyError where
  | valueError (msg : String)
  | assertionError (msg : String)
  | typeError (msg : String)
  deriving Repr, DecidableEq

/-- Python truthiness of an optional string: `None` and `""` are falsy. -/
def isFalsy : Option String → Bool
  | none => true
  | some s => s.isEmpty

/-- Message of the `assert asset` failure. -/
def assetNotFoundMsg (n : String) : String :=
  "Could not find asset in the database with the name '" ++ n ++ "'"

/-- Message of the `assert subset` failure. -/
def subsetNotFoundMsg (n : String) : String :=
  "Could not find subset in the database with the name '" ++ n ++ "'"

/-- Message of the `assert version` failure. -/
def versionNotFoundMsg (a s : String) : String :=
  "Could not find a version for " ++ a ++ "." ++ s

/-- Message of the `assert representation` failure. -/
def reprNotFoundMsg (n : String) : String :=
  "Could not find representation in the database with the name '" ++ n ++ "'"

/-- Python `doc["name"]` where `doc` may be `None`: subscripting `None`
raises `TypeError`. -/
def docName : Option Doc → Except PyError String
  | some d => Except.ok d.name
  | none => Except.error (PyError.typeError "'NoneType' object is not subscriptable")

/-- Embedding of the resolution chain of `switch_item` (lib.py lines
160-185): asset by name, subset by name under it, last version of the
subset, representation by name under it, each guarded by an `assert`, then
`switch_container`.  Returns the result together with the trace of lookups
and mutations performed. -/
def resolve_chain (db : DB) (aN sN rN : String) : Except PyError Doc × List Action :=
  match db.asset_by_name aN with
  | none => (Except.error (PyError.assertionError (assetNotFoundMsg aN)),
      [Action.lookupAsset aN])
  | some assetDoc =>
    match db.subset_by_name sN assetDoc.id with
    | none => (Except.error (PyError.assertionError (subsetNotFoundMsg sN)),
        [Action.lookupAsset aN, Action.lookupSubset sN assetDoc.id])
    | some subsetDoc =>
      match db.last_version_by_subset_id subsetDoc.id with
      | none => (Except.error (PyError.assertionError (versionNotFoundMsg aN sN)),
          [Action.lookupAsset aN, Action.lookupSubset sN assetDoc.id,
           Action.lookupLastVersion subsetDoc.id])
      | some versionDoc =>
        match db.representation_by_name rN versionDoc.id with
        | none => (Except.error (PyError.assertionError (reprNotFoundMsg rN)),
            [Action.lookupAsset aN, Action.lookupSubset sN assetDoc.id,
             Action.lookupLastVersion subsetDoc.id,
             Action.lookupReprByName rN versionDoc.id])
        | some reprDoc =>
          (Except.ok reprDoc,
            [Action.lookupAsset aN, Action.lookupSubset sN assetDoc.id,
             Action.lookupLastVersion subsetDoc.id,
             Action.lookupReprByName rN versionDoc.id,
             Action.switchContainer reprDoc.id])

/-- Prepend earlier actions to a traced result. -/
def prependTrace (t : List Action) (r : Except PyError Doc × List Action) :
    Except PyError Doc × List Action :=
  (r.1, t ++ r.2)

/-- Embedding of `switch_item` (hosts/fusion/api/lib.py).  First the
`ValueError` when all three names are falsy; then, when any name is falsy,
the fill-in of `None` names from the container's current representation and
its parent documents (`version, subset, asset, _`), where subscripting an
absent document raises `TypeError`; finally the resolution chain. -/
def switch_item (db : DB) (container : Container)
    (asset_name subset_name representation_name : Option String) :
    Except PyError Doc × List Action :=
  if isFalsy asset_name && isFalsy subset_name && isFalsy representation_name then
    (Except.error (PyError.valueError "Must have at least one change provided to switch."), [])
  else if isFalsy asset_name || isFalsy subset_name || isFalsy representation_name then
    let repre := db.representation_by_id container.representation
    let parents :=
      match repre with
      | some rd => db.representation_parents rd.id
      | none => none
    let fillTrace : List Action :=
      [Action.lookupReprById container.representation,
       Action.lookupParents (match repre with
        | some rd => rd.id
        | none => container.representation)]
    let assetParent : Option Doc :=
      match parents with
      | some (_, _, a, _) => some a
      | none => none
    let subsetParent : Option Doc :=
      match parents with
      | some (_, s, _, _) => some s
      | none => none
    let aNR : Except PyError String :=
      match asset_name with
      | none => docName assetParent
      | some s => Except.ok s
    let sNR : Except PyError String :=
      match subset_name with
      | none => docName subsetParent
      | some s => Except.ok s
    let rNR : Except PyError String :=
      match representation_name with
      | none => docName repre
      | some s => Except.ok s
    match aNR with
    | Except.error e => (Except.error e, fillTrace)
    | Except.ok aN =>
      match sNR with
      | Except.error e => (Except.error e, fillTrace)
      | Except.ok sN =>
        match rNR with
        | Except.error e => (Except.error e, fillTrace)
        | Except.ok rN => prependTrace fillTrace (resolve_chain db aN sN rN)
  else
    resolve_chain db (asset_name.getD "") (subset_name.getD "")
      (representation_name.getD "")

/-! ## Selection-preserving scope (`maintained_selection`) -/

/-- State of a Fusion composition as `maintained_selection` observes it: the
ordered list of currently selected tools (`GetToolList(True)`), plus the rest
of the comp state, untouched by selection calls. -/
structure CompState (σ : Type) where
  selection : List Nat
  rest : σ

/-- The `finally` block of `maintained_selection`: `flow.Select()` clears the
selection, then each previously selected tool is re-selected with
`flow.Select(tool, True)` when the saved selection is non-empty. -/
def restore_selection {σ : Type} (previous : List Nat) (s : CompState σ) : CompState σ :=
  let cleared : CompState σ := { s with selection := [] }
  if previous.isEmpty then cleared
  else previous.foldl (fun st t => { st with selection := st.selection ++ [t] }) cleared

/-- Embedding of the `maintained_selection` context manager: the body runs
on the comp state and either finishes or raises (`Option ε` is the raised
exception, which the `try/finally` re-raises after restoring); the saved
selection is restored on both exit paths. -/
def maintained_selection {σ ε : Type} (body : CompState σ → Option ε × CompState σ)
    (s0 : CompState σ) : Option ε × CompState σ :=
  let previous := s0.selection
  let br := body s0
  (br.1, restore_selection previous br.2)

/-- A small concrete metadata store used to exercise the theorems: one
asset `hero` (id 1) with subset `modelMain` (id 2), last version id 3, a
representation `exr` (id 4) under it, and a currently loaded representation
id 7 whose parents are that version/subset/asset. -/
def sampleDB : DB where
  asset_by_name := fun n => if n = "hero" then some ⟨1, "hero"⟩ else none
  subset_by_name := fun n aid =>
    if n = "modelMain" ∧ aid = 1 then some ⟨2, "modelMain"⟩ else none
  last_version_by_subset_id := fun sid => if sid = 2 then some ⟨3, "v003"⟩ else none
  representation_by_name := fun n vid =>
    if n = "exr" ∧ vid = 3 then some ⟨4, "exr"⟩ else none
  representation_by_id := fun rid => if rid = 7 then some ⟨7, "exr"⟩ else none
  representation_parents := fun rid =>
    if rid = 7 then some (⟨3, "v003"⟩, ⟨2, "modelMain"⟩, ⟨1, "hero"⟩, ⟨0, "proj"⟩)
    else none

/-! ## Helper lemmas -/

theorem takeWhile_nil_head_not (p : Char → Bool) :
    ∀ (l : List Char) (c : Char), l.takeWhile p = [] → l.head? = some c → p c = false
  | [], _, _, hc => by simp at hc
  | a :: _, c, h0, hc => by
    rw [List.takeWhile_cons] at h0
    have hac : a = c := by simpa using hc
    by_cases hp : p a
    · simp [hp] at h0
    · rw [← hac]
      simpa using hp

theorem head_dropWhile_not (p : Char → Bool) (l : List Char) (c : Char)
    (h : (l.dropWhile p).head? = some c) : p c = false := by
  have h2 := List.head?_dropWhile_not p l
  rw [h] at h2
  simpa using h2

theorem foldl_select_append {σ : Type} :
    ∀ (l : List Nat) (st : CompState σ),
      l.foldl (fun st t => { st with selection := st.selection ++ [t] }) st
        = ⟨st.selection ++ l, st.rest⟩
  | [], st => by simp
  | t :: ts, st => by
    rw [List.foldl_cons, foldl_select_append ts]
    simp

theorem restore_selection_eq {σ : Type} (previous : List Nat) (s : CompState σ) :
    restore_selection previous s = ⟨previous, s.rest⟩ := by
  unfold restore_selection
  by_cases h : previous.isEmpty
  · have : previous = [] := by simpa using h
    simp [h, this]
  · simp [h, foldl_select_append]

theorem orZero_some (v : Int) : orZero (some v) = v := by
  unfold orZero
  by_cases h : v = 0 <;> simp [h]

/-! ## Claim theorems -/

/-- C2: `get_frame_path` returns exactly the three doctest results:
`"C:/test.exr" ↦ ("C:/test", 4, ".exr")`,
`"filename.00.tif" ↦ ("filename.", 2, ".tif")`, and
`"foobar35.tif" ↦ ("foobar", 2, ".tif")`. -/
theorem get_frame_path_doctests :
    get_frame_path "C:/test.exr".toList = ("C:/test".toList, 4, ".exr".toList) ∧
    get_frame_path "filename.00.tif".toList = ("filename.".toList, 2, ".tif".toList) ∧
    get_frame_path "foobar35.tif".toList = ("foobar".toList, 2, ".tif".toList) :=
  ⟨by decide, by decide, by decide⟩

/-- C3: `ValidateInstanceHasMembers.get_invalid` returns exactly the
instance's name when its member set is empty, and the empty list when the
member set is non-empty. -/
theorem get_invalid_spec (inst : Instance) :
    (inst.setMembers = [] → get_invalid inst = [inst.name]) ∧
    (inst.setMembers ≠ [] → get_invalid inst = []) := by
  constructor <;> intro h <;> simp [get_invalid, h]

/-- Witness for C3 at two concrete instances. -/
theorem get_invalid_spec_witness :
    get_invalid ⟨"emptySet", []⟩ = ["emptySet"] ∧
    get_invalid ⟨"fullSet", ["pCube1"]⟩ = [] :=
  ⟨(get_invalid_spec ⟨"emptySet", []⟩).1 rfl,
   (get_invalid_spec ⟨"fullSet", ["pCube1"]⟩).2 (by decide)⟩

/-- C4: `ValidateInstanceHasMembers.process` raises exactly when
`get_invalid` is non-empty, the raised message is the formatted list of
invalid names, and a non-empty member set returns normally. -/
theorem validator_process_spec (inst : Instance) :
    ((∃ msg, validator_process inst = Except.error msg) ↔ get_invalid inst ≠ []) ∧
    (∀ msg, validator_process inst = Except.error msg →
      msg = "Empty instances found: " ++ pyStrList (get_invalid inst)) ∧
    (inst.setMembers ≠ [] → validator_process inst = Except.ok ()) := by
  by_cases hm : inst.setMembers.isEmpty <;>
    simp_all [validator_process, get_invalid, List.isEmpty_iff]

/-- Witness for C4: a populated instance passes, an empty one raises the
formatted message. -/
theorem validator_process_spec_witness :
    validator_process ⟨"fullSet", ["pCube1"]⟩ = Except.ok () ∧
    ((∃ msg, validator_process ⟨"emptySet", []⟩ = Except.error msg) ↔
      get_invalid ⟨"emptySet", []⟩ ≠ []) :=
  ⟨(validator_process_spec ⟨"fullSet", ["pCube1"]⟩).2.2 (by decide),
   (validator_process_spec ⟨"emptySet", []⟩).1⟩

/-- C5: `update_frame_range` writes global range
`[start - handle_start, end + handle_end]`, adds render range
`[start, end]` exactly when the flag is set, and on
`(1001, 1100, 8, 8)` with the flag set yields global `[993, 1108]` and
render `[1001, 1100]`. -/
theorem update_frame_range_spec (start stop hs he : Int) :
    update_frame_range start stop true (some hs) (some he) =
      ⟨start - hs, stop + he, some start, some stop⟩ ∧
    update_frame_range start stop false (some hs) (some he) =
      ⟨start - hs, stop + he, none, none⟩ ∧
    update_frame_range 1001 1100 true (some 8) (some 8) =
      ⟨993, 1108, some 1001, some 1100⟩ := by
  refine ⟨?_, ?_, by decide⟩ <;> simp [update_frame_range, orZero_some]

/-- C10: a `None` handle is treated as `0`: the written attributes agree
with those of the call with `0` in that handle's place. -/
theorem update_frame_range_none_handle (start stop : Int) (flag : Bool)
    (h : Option Int) :
    update_frame_range start stop flag none h =
      update_frame_range start stop flag (some 0) h ∧
    update_frame_range start stop flag h none =
      update_frame_range start stop flag h (some 0) := by
  constructor <;> simp [update_frame_range, orZero]

/-- C9: after `maintained_selection` the selection equals the one saved on
entry, on the normal path and on the exception path alike (the raised
exception and the rest of the comp state pass through unchanged). -/
theorem maintained_selection_restores {σ ε : Type}
    (body : CompState σ → Option ε × CompState σ) (s0 : CompState σ) :
    (maintained_selection body s0).1 = (body s0).1 ∧
    (maintained_selection body s0).2.selection = s0.selection ∧
    (maintained_selection body s0).2.rest = (body s0).2.rest := by
  unfold maintained_selection
  simp [restore_selection_eq]

/-- C6: when all three of asset, subset and representation name are falsy,
`switch_item` raises the `ValueError` with the empty action trace: no
lookup and no container mutation has happened. -/
theorem switch_item_all_falsy (db : DB) (c : Container) (a s r : Option String)
    (ha : isFalsy a = true) (hs : isFalsy s = true) (hr : isFalsy r = true) :
    switch_item db c a s r =
      (Except.error
        (PyError.valueError "Must have at least one change provided to switch."),
       []) := by
  unfold switch_item
  simp [ha, hs, hr]

/-- Witness for C6 at a concrete store, container and argument triple. -/
theorem switch_item_all_falsy_witness :
    switch_item sampleDB ⟨7⟩ none (some "") none =
      (Except.error
        (PyError.valueError "Must have at least one change provided to switch."),
       []) :=
  switch_item_all_falsy sampleDB ⟨7⟩ none (some "") none rfl rfl rfl


theorem resolve_chain_gating (db : DB) (aN sN rN : String) (rid : Nat)
    (h : Action.switchContainer rid ∈ (resolve_chain db aN sN rN).2) :
    ∃ d, (resolve_chain db aN sN rN).1 = Except.ok d ∧ rid = d.id := by
  cases h1 : db.asset_by_name aN with
  | none => simp [resolve_chain, h1] at h
  | some ad =>
    cases h2 : db.subset_by_name sN ad.id with
    | none => simp [resolve_chain, h1, h2] at h
    | some sd =>
      cases h3 : db.last_version_by_subset_id sd.id with
      | none => simp [resolve_chain, h1, h2, h3] at h
      | some vd =>
        cases h4 : db.representation_by_name rN vd.id with
        | none => simp [resolve_chain, h1, h2, h3, h4] at h
        | some rd =>
          simp [resolve_chain, h1, h2, h3, h4] at h
          exact ⟨rd, by simp [resolve_chain, h1, h2, h3, h4], h⟩

theorem switch_item_shape (db : DB) (c : Container) (a s r : Option String) :
    (∃ e pre, switch_item db c a s r = (Except.error e, pre) ∧
      ∀ rid, Action.switchContainer rid ∉ pre) ∨
    (∃ pre aN sN rN, (∀ rid, Action.switchContainer rid ∉ pre) ∧
      switch_item db c a s r = prependTrace pre (resolve_chain db aN sN rN)) := by
  unfold switch_item
  by_cases h1 : (isFalsy a && isFalsy s && isFalsy r) = true
  · rw [if_pos h1]
    exact Or.inl ⟨_, _, rfl, by simp⟩
  · rw [if_neg h1]
    by_cases h2 : (isFalsy a || isFalsy s || isFalsy r) = true
    · rw [if_pos h2]
      simp only []
      split
      · exact Or.inl ⟨_, _, rfl, by simp⟩
      · split
        · exact Or.inl ⟨_, _, rfl, by simp⟩
        · split
          · exact Or.inl ⟨_, _, rfl, by simp⟩
          · exact Or.inr ⟨_, _, _, _, by simp, rfl⟩
    · rw [if_neg h2]
      refine Or.inr ⟨[], a.getD "", s.getD "", r.getD "", by simp, ?_⟩
      simp [prependTrace]


theorem switch_item_gating (db : DB) (c : Container) (a s r : Option String) (rid : Nat)
    (h : Action.switchContainer rid ∈ (switch_item db c a s r).2) :
    ∃ d, (switch_item db c a s r).1 = Except.ok d ∧ rid = d.id := by
  rcases switch_item_shape db c a s r with ⟨e, pre, heq, hpre⟩ | ⟨pre, aN, sN, rN, hpre, heq⟩
  · rw [heq] at h
    exact absurd h (hpre rid)
  · rw [heq] at h ⊢
    unfold prependTrace at h ⊢
    simp only [List.mem_append] at h
    rcases h with h | h
    · exact absurd h (hpre rid)
    · exact resolve_chain_gating db aN sN rN rid h

theorem switch_item_eq_chain (db : DB) (c : Container) (aN sN rN : String)
    (ha : aN ≠ "") (hsu : sN ≠ "") (hre : rN ≠ "") :
    switch_item db c (some aN) (some sN) (some rN) = resolve_chain db aN sN rN := by
  have hfal : ∀ x : String, x ≠ "" → isFalsy (some x) = false := by
    intro x hx
    show x.isEmpty = false
    rw [Bool.eq_false_iff]
    intro he
    exact hx ((String.isEmpty_iff x).mp he)
  have ha' := hfal aN ha
  have hs' := hfal sN hsu
  have hr' := hfal rN hre
  unfold switch_item
  rw [ha', hs', hr']
  simp

theorem switch_item_resolution_order (db : DB) (c : Container) (aN sN rN : String)
    (ha : aN ≠ "") (hsu : sN ≠ "") (hre : rN ≠ "") :
    (∀ (a s r : Option String) (rid : Nat),
        Action.switchContainer rid ∈ (switch_item db c a s r).2 →
        ∃ d, (switch_item db c a s r).1 = Except.ok d ∧ rid = d.id) ∧
    (db.asset_by_name aN = none →
      switch_item db c (some aN) (some sN) (some rN) =
        (Except.error (PyError.assertionError (assetNotFoundMsg aN)),
         [Action.lookupAsset aN])) ∧
    (∀ ad, db.asset_by_name aN = some ad →
      db.subset_by_name sN ad.id = none →
      switch_item db c (some aN) (some sN) (some rN) =
        (Except.error (PyError.assertionError (subsetNotFoundMsg sN)),
         [Action.lookupAsset aN, Action.lookupSubset sN ad.id])) ∧
    (∀ ad sd, db.asset_by_name aN = some ad →
      db.subset_by_name sN ad.id = some sd →
      db.last_version_by_subset_id sd.id = none →
      switch_item db c (some aN) (some sN) (some rN) =
        (Except.error (PyError.assertionError (versionNotFoundMsg aN sN)),
         [Action.lookupAsset aN, Action.lookupSubset sN ad.id,
          Action.lookupLastVersion sd.id])) ∧
    (∀ ad sd vd, db.asset_by_name aN = some ad →
      db.subset_by_name sN ad.id = some sd →
      db.last_version_by_subset_id sd.id = some vd →
      db.representation_by_name rN vd.id = none →
      switch_item db c (some aN) (some sN) (some rN) =
        (Except.error (PyError.assertionError (reprNotFoundMsg rN)),
         [Action.lookupAsset aN, Action.lookupSubset sN ad.id,
          Action.lookupLastVersion sd.id, Action.lookupReprByName rN vd.id])) ∧
    (∀ ad sd vd rd, db.asset_by_name aN = some ad →
      db.subset_by_name sN ad.id = some sd →
      db.last_version_by_subset_id sd.id = some vd →
      db.representation_by_name rN vd.id = some rd →
      switch_item db c (some aN) (some sN) (some rN) =
        (Except.ok rd,
         [Action.lookupAsset aN, Action.lookupSubset sN ad.id,
          Action.lookupLastVersion sd.id, Action.lookupReprByName rN vd.id,
          Action.switchContainer rd.id])) := by
  refine ⟨switch_item_gating db c, ?_, ?_, ?_, ?_, ?_⟩
  · intro h1
    rw [switch_item_eq_chain db c aN sN rN ha hsu hre]
    simp [resolve_chain, h1]
  · intro ad h1 h2
    rw [switch_item_eq_chain db c aN sN rN ha hsu hre]
    simp [resolve_chain, h1, h2]
  · intro ad sd h1 h2 h3
    rw [switch_item_eq_chain db c aN sN rN ha hsu hre]
    simp [resolve_chain, h1, h2, h3]
  · intro ad sd vd h1 h2 h3 h4
    rw [switch_item_eq_chain db c aN sN rN ha hsu hre]
    simp [resolve_chain, h1, h2, h3, h4]
  · intro ad sd vd rd h1 h2 h3 h4
    rw [switch_item_eq_chain db c aN sN rN ha hsu hre]
    simp [resolve_chain, h1, h2, h3, h4]

theorem switch_item_resolution_order_witness :
    switch_item sampleDB ⟨7⟩ (some "hero") (some "modelMain") (some "exr") =
      (Except.ok ⟨4, "exr"⟩,
       [Action.lookupAsset "hero", Action.lookupSubset "modelMain" 1,
        Action.lookupLastVersion 2, Action.lookupReprByName "exr" 3,
        Action.switchContainer 4]) :=
  (switch_item_resolution_order sampleDB ⟨7⟩ "hero" "modelMain" "exr"
      (by decide) (by decide) (by decide)).2.2.2.2.2
    ⟨1, "hero"⟩ ⟨2, "modelMain"⟩ ⟨3, "v003"⟩ ⟨4, "exr"⟩
    (by decide) (by decide) (by decide) (by decide)

theorem switch_item_fillin (db : DB) (c : Container) (a s r : Option String)
    (rd v sd ad proj : Doc)
    (hAny : (isFalsy a || isFalsy s || isFalsy r) = true)
    (hNotAll : ¬((isFalsy a && isFalsy s && isFalsy r) = true))
    (hRepre : db.representation_by_id c.representation = some rd)
    (hPar : db.representation_parents rd.id = some (v, sd, ad, proj)) :
    switch_item db c a s r =
      prependTrace [Action.lookupReprById c.representation, Action.lookupParents rd.id]
        (resolve_chain db (a.getD ad.name) (s.getD sd.name) (r.getD rd.name)) := by
  unfold switch_item
  rw [if_neg hNotAll, if_pos hAny]
  simp only [hRepre, hPar]
  cases a <;> cases s <;> cases r <;> simp [docName, Option.getD]

theorem switch_item_fillin_witness :
    switch_item sampleDB ⟨7⟩ none (some "modelMain") none =
      prependTrace [Action.lookupReprById 7, Action.lookupParents 7]
        (resolve_chain sampleDB "hero" "modelMain" "exr") :=
  switch_item_fillin sampleDB ⟨7⟩ none (some "modelMain") none
    ⟨7, "exr"⟩ ⟨3, "v003"⟩ ⟨2, "modelMain"⟩ ⟨1, "hero"⟩ ⟨0, "proj"⟩
    (by decide) (by decide) (by decide) (by decide)


theorem trailing_run_decomp (l : List Char)
    (h0 : (l.reverse.takeWhile Char.isDigit).length ≠ 0) :
    ∃ run, run ≠ [] ∧ (∀ c ∈ run, c.isDigit = true) ∧
      l = l.take (l.length - (l.reverse.takeWhile Char.isDigit).length) ++ run ∧
      run.length = (l.reverse.takeWhile Char.isDigit).length ∧
      (∀ c, (l.take (l.length -
          (l.reverse.takeWhile Char.isDigit).length)).getLast? = some c →
        c.isDigit = false) := by
  set T := l.reverse.takeWhile Char.isDigit with hT
  set D := l.reverse.dropWhile Char.isDigit with hD
  have hTD : T ++ D = l.reverse := List.takeWhile_append_dropWhile Char.isDigit l.reverse
  have hsplit : l = D.reverse ++ T.reverse := by
    have h2 : (T ++ D).reverse = l.reverse.reverse := by rw [hTD]
    have h3 : D.reverse ++ T.reverse = l := by simpa [List.reverse_append] using h2
    exact h3.symm
  have hlen : l.length - T.length = D.reverse.length := by
    have : l.length = T.length + D.length := by
      have := congrArg List.length hTD
      simpa using this.symm
    simp [this]
  have htake : l.take (l.length - T.length) = D.reverse := by
    rw [hlen, hsplit]
    exact List.take_left' rfl
  refine ⟨T.reverse, ?_, ?_, ?_, by simp, ?_⟩
  · intro hnil
    exact h0 (by simpa using congrArg List.length hnil)
  · intro c hc
    exact List.mem_takeWhile_imp (List.mem_reverse.mp hc)
  · rw [htake]
    exact hsplit
  · intro c hc
    show Char.isDigit c = false
    have hhd : D.head? = some c := by
      rw [← List.getLast?_reverse]
      rw [htake] at hc
      exact hc
    exact head_dropWhile_not Char.isDigit l.reverse c hhd

theorem get_frame_path_eq_some (path : List Char) (m : Nat)
    (h : frameNumberMatch (splitextL path).1 = some m) :
    get_frame_path path =
      ((splitextL path).1.take ((splitextL path).1.length - m), m,
       (splitextL path).2) := by
  simp only [get_frame_path]
  rw [h]

theorem get_frame_path_eq_none (path : List Char)
    (h : frameNumberMatch (splitextL path).1 = none) :
    get_frame_path path = ((splitextL path).1, 4, (splitextL path).2) := by
  simp only [get_frame_path]
  rw [h]

/-- C1, counterexample: the claim fails on stems containing a newline.  The
stem of `"ab\n12"` ends in the non-empty digit run `"12"`, yet
`get_frame_path` returns the stem unchanged with the default padding 4 (the
lazy `.*?` cannot cross the interior newline); and the stem of
`"abc12\n"` ends in a newline, not a digit, yet `get_frame_path` strips two
characters (`"2\n"`) and returns padding 2, because `$` matches before the
trailing newline and `filename[:-2]` counts from the end of the stem. -/
theorem get_frame_path_padding_cex :
    ((splitextL "ab\n12".toList).1 = "ab\n".toList ++ "12".toList ∧
      "12".toList ≠ [] ∧ (∀ c ∈ ("12".toList : List Char), c.isDigit = true)) ∧
    get_frame_path "ab\n12".toList = ("ab\n12".toList, 4, []) ∧
    (∀ c, ((splitextL "abc12\n".toList).1).getLast? = some c →
      c.isDigit = false) ∧
    get_frame_path "abc12\n".toList = ("abc1".toList, 2, []) := by
  refine ⟨by decide, by decide, ?_, by decide⟩
  intro c hc
  have h2 : ((splitextL "abc12\n".toList).1).getLast? = some '\n' := by decide
  rw [h2] at hc
  injection hc with h3
  subst h3
  decide

/-- C1, amended: for every path, `get_frame_path` splits off the extension;
writing `t` for the stem minus one trailing newline, if `t` ends in a
non-empty digit run and contains no newline then the result removes the
run's length of characters from the end of the stem (so a trailing newline
is counted by the removal) and returns that length as the padding, where
the run is the maximal trailing digit run of `t`; in every other case
(no trailing digit run in `t`, or a newline elsewhere in `t`) the stem is
returned unchanged with the default padding 4. -/
theorem get_frame_path_padding_amended (path : List Char) :
    (get_frame_path path).2.2 = (splitextL path).2 ∧
    ((∃ run, run ≠ [] ∧ (∀ c ∈ run, c.isDigit = true) ∧
        '\n' ∉ stripTrailingNewline (splitextL path).1 ∧
        stripTrailingNewline (splitextL path).1 =
          (stripTrailingNewline (splitextL path).1).take
            ((stripTrailingNewline (splitextL path).1).length - run.length) ++ run ∧
        (∀ c, ((stripTrailingNewline (splitextL path).1).take
            ((stripTrailingNewline (splitextL path).1).length -
              run.length)).getLast? = some c → c.isDigit = false) ∧
        (get_frame_path path).1 =
          (splitextL path).1.take ((splitextL path).1.length - run.length) ∧
        (get_frame_path path).2.1 = run.length) ∨
      (('\n' ∈ stripTrailingNewline (splitextL path).1 ∨
          (∀ c, (stripTrailingNewline (splitextL path).1).getLast? = some c →
            c.isDigit = false)) ∧
        (get_frame_path path).1 = (splitextL path).1 ∧
        (get_frame_path path).2.1 = 4)) := by
  set f := (splitextL path).1 with hf
  set t := stripTrailingNewline f with ht
  set m := (t.reverse.takeWhile Char.isDigit).length with hm
  by_cases hcond : m ≠ 0 ∧ '\n' ∉ t
  · have hsome : frameNumberMatch f = some m := by
      show (if m ≠ 0 ∧ '\n' ∉ t then some m else none) = some m
      rw [if_pos hcond]
    obtain ⟨hm0, hnl⟩ := hcond
    obtain ⟨run, hne, hdig, hdecomp, hlen, hmax⟩ := trailing_run_decomp t hm0
    rw [get_frame_path_eq_some path m hsome]
    refine ⟨rfl, Or.inl ⟨run, hne, hdig, hnl, ?_, ?_, ?_, ?_⟩⟩
    · rw [hlen]
      exact hdecomp
    · rw [hlen]
      exact hmax
    · rw [hlen]
    · rw [hlen]
  · have hnone : frameNumberMatch f = none := by
      show (if m ≠ 0 ∧ '\n' ∉ t then some m else none) = none
      rw [if_neg hcond]
    rw [get_frame_path_eq_none path hnone]
    refine ⟨rfl, Or.inr ⟨?_, rfl, rfl⟩⟩
    by_cases hm0 : m = 0
    · right
      intro c hc
      have hrev : t.reverse.head? = some c := by
        rw [List.head?_reverse]
        exact hc
      exact takeWhile_nil_head_not Char.isDigit t.reverse c
        (List.length_eq_zero.mp hm0) hrev
    · left
      by_contra hnl
      exact hcond ⟨hm0, hnl⟩

end OpenPype
